import Mathlib

/-!
Shallow embedding of the pension-pilot mail service (src/index.js).

The file models the two components the specification describes:

* the connection manager `initializeTransporter` (src/index.js lines 51-102),
  including the mutable `serviceState` record, the `validateConfig` check
  (which throws inside the `try`, so a missing password is caught by the same
  `catch` as a verification failure), the linear backoff
  `5000 * (retryCount + 1)` and the retry guard
  `retryCount < serviceState.maxReconnectAttempts`;

* the send gateway: `sendEmail` (lines 133-156) with its lazy
  re-initialization and envelope composition, and the `POST /send` handler
  (lines 181-220) with its truthiness presence check and the address regex.

Effects are made explicit: the verification outcome of attempt number `n`
(counted by `retryCount`) is an oracle `verify : Nat -> Bool`; the presence of
the `EMAIL_PASSWORD` environment variable is a boolean `passwordSet`; wall
clock waiting (`setTimeout`) is accumulated in a `totalDelay` ghost counter;
the number of `transporter.verify()` calls is the ghost counter `verifyCalls`;
and the states observable by other tasks of the event loop are collected in a
ghost `trace` of snapshots (one per I/O suspension point).
-/

/-- The values taken by `serviceState.connectionStatus` in src/index.js:
"Not initialized", "Initializing...", "Connected", "Failed". -/
inductive ConnStatus
  | notInitialized
  | initializing
  | connected
  | failed
  deriving DecidableEq, Repr

/-- The two kinds of error stored in `serviceState.lastError` by
`initializeTransporter`: the `validateConfig` throw (missing
`EMAIL_PASSWORD`) and a rejected `transporter.verify()`. -/
inductive ErrKind
  | configError
  | verifyError
  deriving DecidableEq, Repr

/-- The `serviceState` object of src/index.js lines 9-15. `lastCheck`
(a `Date` in the source) is modelled as a natural-number clock value. -/
structure ServiceState where
  lastError : Option ErrKind
  connectionStatus : ConnStatus
  lastCheck : Option Nat
  reconnectAttempts : Nat
  maxReconnectAttempts : Nat
  deriving DecidableEq, Repr

/-- The initial value of `serviceState` (src/index.js lines 9-15). -/
def initialServiceState : ServiceState :=
  { lastError := none
    connectionStatus := ConnStatus.notInitialized
    lastCheck := none
    reconnectAttempts := 0
    maxReconnectAttempts := 5 }

/-- The `SMTP_CONFIG` constant of src/index.js lines 25-32. -/
structure SmtpConfig where
  host : String
  port : Nat
  secure : Bool
  user : String
  bounceAddress : String
  defaultReplyTo : String
  deriving DecidableEq, Repr

def SMTP_CONFIG : SmtpConfig :=
  { host := "mail.privateemail.com"
    port := 465
    secure := true
    user := "noreply@pension-pilot.co.uk"
    bounceAddress := "bounces@pension-pilot.co.uk"
    defaultReplyTo := "noreply@pension-pilot.co.uk" }

/-- The transport handle produced by `nodemailer.createTransport`
(src/index.js lines 59-71), keeping the configuration fields that the
service passes in. -/
structure Transporter where
  host : String
  port : Nat
  secure : Bool
  user : String
  deriving DecidableEq, Repr

/-- The transport built by `initializeTransporter` from `SMTP_CONFIG`. -/
def mkTransporter : Transporter :=
  { host := SMTP_CONFIG.host
    port := SMTP_CONFIG.port
    secure := SMTP_CONFIG.secure
    user := SMTP_CONFIG.user }

/-- A snapshot of the pair (serviceState.connectionStatus, module-level
`transporter` variable) at a point where the event loop can run other
tasks (an I/O suspension: a `verify()` wait, a backoff timer, or process
idle time after completion). -/
structure Snapshot where
  connectionStatus : ConnStatus
  transporterVar : Option Transporter
  deriving DecidableEq, Repr

/-- The outcome of a run of `initializeTransporter`: the returned handle
(`null` is `none`), the final `serviceState`, and ghost instrumentation:
total milliseconds spent in `setTimeout` backoff waits, number of
`transporter.verify()` calls performed, and the snapshots observable at
I/O suspension points while the run is in progress (the module-level
`transporter` variable is still untouched during the run, hence `none`
in every in-run snapshot). -/
structure InitResult where
  transporter : Option Transporter
  state : ServiceState
  totalDelay : Nat
  verifyCalls : Nat
  trace : List Snapshot
  deriving Repr

/-- src/index.js lines 51-102, `initializeTransporter(retryCount = 0)`.

`validateConfig` (lines 39-48) throws when `EMAIL_PASSWORD` is absent;
the throw happens inside the `try`, before the `Initializing...` status
update, and is handled by the same `catch` block as a verification
failure, so it too sets `Failed`, bumps `reconnectAttempts`, and retries
with backoff while `retryCount < serviceState.maxReconnectAttempts`.

When the password is present, the status becomes `Initializing...` and
`lastCheck` is stamped, the transport is constructed, and `verify()` is
awaited; on success the status becomes `Connected`, `lastError` is
cleared and `reconnectAttempts` reset; on failure the `catch` block
records the error, sets `Failed`, sets `reconnectAttempts` to
`retryCount + 1`, and either waits `5000 * (retryCount + 1)` ms and
recurses with `retryCount + 1`, or (once the guard fails) returns
`null`. -/
def initializeTransporter (passwordSet : Bool) (verify : Nat → Bool)
    (retryCount : Nat) (s : ServiceState) (now : Nat) : InitResult :=
  if passwordSet then
    let s1 : ServiceState :=
      { s with connectionStatus := ConnStatus.initializing, lastCheck := some now }
    if verify retryCount then
      { transporter := some mkTransporter
        state := { s1 with connectionStatus := ConnStatus.connected
                           lastError := none
                           reconnectAttempts := 0 }
        totalDelay := 0
        verifyCalls := 1
        trace := [⟨ConnStatus.initializing, none⟩] }
    else
      let s2 : ServiceState :=
        { s1 with lastError := some ErrKind.verifyError
                  connectionStatus := ConnStatus.failed
                  reconnectAttempts := retryCount + 1 }
      if _h : retryCount < s2.maxReconnectAttempts then
        let d := 5000 * (retryCount + 1)
        let r := initializeTransporter passwordSet verify (retryCount + 1) s2 (now + d)
        { r with totalDelay := d + r.totalDelay
                 verifyCalls := 1 + r.verifyCalls
                 trace := ⟨ConnStatus.initializing, none⟩ ::
                          ⟨ConnStatus.failed, none⟩ :: r.trace }
      else
        { transporter := none
          state := s2
          totalDelay := 0
          verifyCalls := 1
          trace := [⟨ConnStatus.initializing, none⟩] }
  else
    let s2 : ServiceState :=
      { s with lastError := some ErrKind.configError
               connectionStatus := ConnStatus.failed
               reconnectAttempts := retryCount + 1 }
    if _h : retryCount < s2.maxReconnectAttempts then
      let d := 5000 * (retryCount + 1)
      let r := initializeTransporter passwordSet verify (retryCount + 1) s2 (now + d)
      { r with totalDelay := d + r.totalDelay
               verifyCalls := r.verifyCalls
               trace := ⟨ConnStatus.failed, none⟩ :: r.trace }
    else
      { transporter := none
        state := s2
        totalDelay := 0
        verifyCalls := 0
        trace := [] }
  termination_by s.maxReconnectAttempts - retryCount
  decreasing_by all_goals simp_all [ServiceState.maxReconnectAttempts]; omega

/-- src/index.js lines 104-108: module load runs `initializeTransporter()`
on `initialServiceState` and assigns the result to the module-level
`transporter` variable in a `.then` callback.  The trace extends the
in-run snapshots with the process-start snapshot and the final snapshot:
the `.then` assignment runs as a promise-resolution job before any
subsequent I/O event can be handled, so the first state observable after
completion already has the handle assigned. -/
def startup (passwordSet : Bool) (verify : Nat → Bool) : InitResult :=
  let r := initializeTransporter passwordSet verify 0 initialServiceState 0
  { r with trace :=
      ⟨initialServiceState.connectionStatus, none⟩ ::
        (r.trace ++ [⟨r.state.connectionStatus, r.transporter⟩]) }

/-- JavaScript truthiness of a destructured request-body field that is
either absent (`undefined`, modelled `none`) or a string: both
`undefined` and the empty string are falsy. -/
def jsFalsy : Option String → Bool
  | none => true
  | some st => st == ""

/-- The ECMAScript regex whitespace class: the WhiteSpace production
(TAB U+0009, VT U+000B, FF U+000C, SPACE U+0020, NBSP U+00A0,
BOM U+FEFF and the Unicode Space_Separator characters U+1680,
U+2000..U+200A, U+202F, U+205F, U+3000) together with the
LineTerminator characters (LF U+000A, CR U+000D, LS U+2028,
PS U+2029). -/
def jsWhitespace (c : Char) : Bool :=
  let n := c.toNat
  n == 0x09 || n == 0x0A || n == 0x0B || n == 0x0C || n == 0x0D ||
    n == 0x20 || n == 0xA0 || n == 0x1680 ||
    (decide (0x2000 ≤ n) && decide (n ≤ 0x200A)) ||
    n == 0x2028 || n == 0x2029 || n == 0x202F || n == 0x205F ||
    n == 0x3000 || n == 0xFEFF

/-- A character matched by the regex class of non-whitespace, non-at
characters (written in the source as the negated class of the
ECMAScript whitespace characters and the at sign). -/
def isAtomChar (c : Char) : Bool := !jsWhitespace c && c != '@'

def allAtom (l : List Char) : Bool := l.all isAtomChar

/-- Anchored match of the part of the address pattern after the at sign:
one or more atom characters, a literal dot, one or more atom characters.
A list matches exactly when some position `j` holds a dot with a
nonempty all-atom prefix before it and a nonempty all-atom suffix after
it. -/
def domainTailMatch (d : List Char) : Bool :=
  (List.range d.length).any fun j =>
    d.getD j '@' == '.' && decide (0 < j) && allAtom (d.take j) &&
      decide (j + 1 < d.length) && allAtom (d.drop (j + 1))

/-- src/index.js line 193: the anchored address-shape regex — one or more
atom characters, an at sign, then `domainTailMatch`.  A string matches
exactly when some position `i` holds an at sign with a nonempty all-atom
prefix before it and a matching domain tail after it. -/
def emailRegexTest (s : String) : Bool :=
  let l := s.data
  (List.range l.length).any fun i =>
    l.getD i '.' == '@' && decide (0 < i) && allAtom (l.take i) &&
      domainTailMatch (l.drop (i + 1))

/-- The argument object of `sendEmail` (src/index.js line 133):
caller-supplied `to`, `subject`, `body` and optional `replyTo`. -/
structure SendOptions where
  toAddr : String
  subject : String
  body : String
  replyTo : Option String
  deriving DecidableEq, Repr

/-- The message envelope handed to `transporter.sendMail`
(src/index.js lines 141-153).  The `from` field of the source is the
single-quoted JavaScript string literal containing the characters
dollar, brace, `SMTP_CONFIG.user`, brace — single quotes perform no
template interpolation, so the literal text is sent as-is. -/
structure EmailConfig where
  fromField : String
  toAddr : String
  subject : String
  text : String
  replyTo : String
  returnPath : String
  headers : List (String × String)
  deriving DecidableEq, Repr

/-- src/index.js lines 141-153: envelope composition.  `options.replyTo ||
SMTP_CONFIG.defaultReplyTo` falls back to the default when the override
is absent or falsy (empty). -/
def composeEmailConfig (options : SendOptions) : EmailConfig :=
  { fromField := "\"Pension Pilot\" <$\x7bSMTP_CONFIG.user\x7d>"
    toAddr := options.toAddr
    subject := options.subject
    text := options.body
    replyTo := if jsFalsy options.replyTo then SMTP_CONFIG.defaultReplyTo
               else options.replyTo.getD ""
    returnPath := SMTP_CONFIG.bounceAddress
    headers := [("List-Unsubscribe", "<mailto:unsubscribe@pension-pilot.co.uk>"),
                ("X-Mailer", "Pension Pilot Mail Service"),
                ("Precedence", "bulk")] }

/-- The errors a send can surface: the two validation throws of the
`POST /send` handler, the `sendEmail` throw when no transport could be
obtained, and a rejection from the external `sendMail` call. -/
inductive SendError
  | missingFields
  | invalidAddress
  | notInitialized
  | transmission
  deriving DecidableEq, Repr

/-- The info object resolved by a successful `transporter.sendMail`. -/
structure MailInfo where
  messageId : String
  deriving DecidableEq, Repr

/-- Outcome of `sendEmail`: the result (or throw), the module-level
`transporter` variable and `serviceState` afterwards, and ghost
instrumentation: how many times `initializeTransporter` was invoked,
how many verification attempts and how much backoff delay that
invocation performed, whether `sendMail` was called, and with which
envelope. -/
structure SendOutcome where
  result : Except SendError MailInfo
  transporterVar : Option Transporter
  state : ServiceState
  initCalls : Nat
  initVerifyCalls : Nat
  initDelay : Nat
  sendMailCalled : Bool
  sentConfig : Option EmailConfig
  deriving Repr

/-- src/index.js lines 133-156, `sendEmail(options)`.  When the
module-level `transporter` is null it awaits one call of
`initializeTransporter()` (whole retry ladder included) and throws
`Mail service not initialized` if the result is still null; otherwise it
composes the envelope and delegates to `transporter.sendMail`, whose
outcome is the oracle `mailOutcome` (`none` models a rejection). -/
def sendEmail (passwordSet : Bool) (verify : Nat → Bool)
    (mailOutcome : Option MailInfo) (options : SendOptions)
    (transporterVar : Option Transporter) (s : ServiceState) (now : Nat) :
    SendOutcome :=
  match transporterVar with
  | none =>
    let r := initializeTransporter passwordSet verify 0 s now
    match r.transporter with
    | none =>
      { result := Except.error SendError.notInitialized
        transporterVar := none
        state := r.state
        initCalls := 1
        initVerifyCalls := r.verifyCalls
        initDelay := r.totalDelay
        sendMailCalled := false
        sentConfig := none }
    | some t =>
      let cfg := composeEmailConfig options
      { result := match mailOutcome with
          | some info => Except.ok info
          | none => Except.error SendError.transmission
        transporterVar := some t
        state := r.state
        initCalls := 1
        initVerifyCalls := r.verifyCalls
        initDelay := r.totalDelay
        sendMailCalled := true
        sentConfig := some cfg }
  | some t =>
    let cfg := composeEmailConfig options
    { result := match mailOutcome with
        | some info => Except.ok info
        | none => Except.error SendError.transmission
      transporterVar := some t
      state := s
      initCalls := 0
      initVerifyCalls := 0
      initDelay := 0
      sendMailCalled := true
      sentConfig := some cfg }

/-- The JSON outcome of the `POST /send` handler plus the same ghost
instrumentation as `SendOutcome`: `success`/`messageId` mirror the 200
response body, `errorResponse` the error of the 500 body. -/
structure HandlerOutcome where
  success : Bool
  errorResponse : Option SendError
  messageId : Option String
  transporterVar : Option Transporter
  state : ServiceState
  initCalls : Nat
  initVerifyCalls : Nat
  initDelay : Nat
  sendMailCalled : Bool
  sentConfig : Option EmailConfig
  deriving Repr

/-- src/index.js lines 181-220, the `POST /send` handler.  The request
body fields are each absent (`none`) or a string.  Line 186 tests
truthiness of `to`, `subject`, `body` and throws the missing-fields
error; line 194 tests `to` against the address regex and throws the
invalid-address error; otherwise `sendEmail` runs and the `catch` maps
any throw to a 500 error envelope without touching `serviceState`. -/
def handleSend (passwordSet : Bool) (verify : Nat → Bool)
    (mailOutcome : Option MailInfo)
    (toAddr subject body replyTo : Option String)
    (transporterVar : Option Transporter) (s : ServiceState) (now : Nat) :
    HandlerOutcome :=
  if jsFalsy toAddr || jsFalsy subject || jsFalsy body then
    { success := false
      errorResponse := some SendError.missingFields
      messageId := none
      transporterVar := transporterVar
      state := s
      initCalls := 0
      initVerifyCalls := 0
      initDelay := 0
      sendMailCalled := false
      sentConfig := none }
  else if !emailRegexTest (toAddr.getD "") then
    { success := false
      errorResponse := some SendError.invalidAddress
      messageId := none
      transporterVar := transporterVar
      state := s
      initCalls := 0
      initVerifyCalls := 0
      initDelay := 0
      sendMailCalled := false
      sentConfig := none }
  else
    let o := sendEmail passwordSet verify mailOutcome
      ⟨toAddr.getD "", subject.getD "", body.getD "", replyTo⟩ transporterVar s now
    match o.result with
    | Except.ok info =>
      { success := true
        errorResponse := none
        messageId := some info.messageId
        transporterVar := o.transporterVar
        state := o.state
        initCalls := o.initCalls
        initVerifyCalls := o.initVerifyCalls
        initDelay := o.initDelay
        sendMailCalled := o.sendMailCalled
        sentConfig := o.sentConfig }
    | Except.error e =>
      { success := false
        errorResponse := some e
        messageId := none
        transporterVar := o.transporterVar
        state := o.state
        initCalls := o.initCalls
        initVerifyCalls := o.initVerifyCalls
        initDelay := o.initDelay
        sendMailCalled := o.sendMailCalled
        sentConfig := o.sentConfig }

example : emailRegexTest "a@b.c" = true := by decide

example : emailRegexTest "not-an-email" = false := by decide

example : emailRegexTest "" = false := by decide

example : emailRegexTest "a@b" = false := by decide

example : emailRegexTest "a\x0B@b.c" = false := by decide

example : emailRegexTest "a\u00A0@b.c" = false := by decide

example : emailRegexTest "a @b.c" = false := by decide

example : emailRegexTest "a@b\u2028.c" = false := by decide

/-- Total backoff accumulated when the attempt numbered `rc` and the `k - 1`
attempts after it all fail and a wait follows each of those `k` failures:
`5000 * (rc + 1) + 5000 * (rc + 2) + ... + 5000 * (rc + k)`. -/
def backoffTotal (rc k : Nat) : Nat :=
  match k with
  | 0 => 0
  | m + 1 => 5000 * (rc + 1) + backoffTotal (rc + 1) m

theorem backoffTotal_eq_sum :
    ∀ (k rc : Nat), backoffTotal rc k =
      Finset.sum (Finset.range k) (fun i => 5000 * (rc + 1 + i)) := by
  intro k
  induction k with
  | zero => intro rc; simp [backoffTotal]
  | succ m ih =>
    intro rc
    rw [show backoffTotal rc (m + 1) = 5000 * (rc + 1) + backoffTotal (rc + 1) m from rfl,
        ih (rc + 1), Finset.sum_range_succ']
    rw [Finset.sum_congr rfl
      (fun i _ => show 5000 * (rc + 1 + 1 + i) = 5000 * (rc + 1 + (i + 1)) by ring)]
    omega

theorem initAllFail_aux (verify : Nat → Bool) (hv : ∀ i, verify i = false) :
    ∀ (n rc : Nat) (s : ServiceState) (now : Nat),
      s.maxReconnectAttempts - rc = n → rc ≤ s.maxReconnectAttempts →
      (initializeTransporter true verify rc s now).transporter = none ∧
      (initializeTransporter true verify rc s now).state.connectionStatus = ConnStatus.failed ∧
      (initializeTransporter true verify rc s now).state.reconnectAttempts =
        s.maxReconnectAttempts + 1 ∧
      (initializeTransporter true verify rc s now).verifyCalls =
        s.maxReconnectAttempts + 1 - rc := by
  intro n
  induction n with
  | zero =>
    intro rc s now hn hle
    have hrc : rc = s.maxReconnectAttempts := by omega
    rw [initializeTransporter.eq_def]
    simp [hv, hrc]
  | succ m ih =>
    intro rc s now hn hle
    have hlt : rc < s.maxReconnectAttempts := by omega
    rw [initializeTransporter.eq_def]
    simp only [hv, if_true, reduceIte, Bool.false_eq_true]
    rw [dif_pos hlt]
    have hrec := ih (rc + 1)
      { lastError := some ErrKind.verifyError, connectionStatus := ConnStatus.failed,
        lastCheck := some now, reconnectAttempts := rc + 1,
        maxReconnectAttempts := s.maxReconnectAttempts }
      (now + 5000 * (rc + 1))
      (by show s.maxReconnectAttempts - (rc + 1) = m; omega)
      (by show rc + 1 ≤ s.maxReconnectAttempts; omega)
    obtain ⟨h1, h2, h3, h4⟩ := hrec
    refine ⟨h1, h2, h3, ?_⟩
    show 1 + _ = _
    rw [h4]
    show 1 + (s.maxReconnectAttempts + 1 - (rc + 1)) = s.maxReconnectAttempts + 1 - rc
    omega

theorem initEventualSuccess_aux (verify : Nat → Bool) :
    ∀ (k rc : Nat) (s : ServiceState) (now : Nat),
      (∀ i, i < k → verify (rc + i) = false) → verify (rc + k) = true →
      rc + k ≤ s.maxReconnectAttempts →
      (initializeTransporter true verify rc s now).transporter = some mkTransporter ∧
      (initializeTransporter true verify rc s now).state.connectionStatus =
        ConnStatus.connected ∧
      (initializeTransporter true verify rc s now).state.reconnectAttempts = 0 ∧
      (initializeTransporter true verify rc s now).totalDelay = backoffTotal rc k ∧
      (initializeTransporter true verify rc s now).verifyCalls = k + 1 := by
  intro k
  induction k with
  | zero =>
    intro rc s now _ hsucc _
    rw [initializeTransporter.eq_def]
    simp only [Nat.add_zero] at hsucc
    simp [hsucc, backoffTotal]
  | succ m ih =>
    intro rc s now hfail hsucc hle
    have hv0 : verify rc = false := by simpa using hfail 0 (Nat.succ_pos m)
    have hlt : rc < s.maxReconnectAttempts := by omega
    rw [initializeTransporter.eq_def]
    simp only [hv0, Bool.false_eq_true, reduceIte, if_true]
    rw [dif_pos hlt]
    have hrec := ih (rc + 1)
      { lastError := some ErrKind.verifyError, connectionStatus := ConnStatus.failed,
        lastCheck := some now, reconnectAttempts := rc + 1,
        maxReconnectAttempts := s.maxReconnectAttempts }
      (now + 5000 * (rc + 1))
      (fun i hi => by
        have h := hfail (i + 1) (by omega)
        have e : rc + (i + 1) = rc + 1 + i := by omega
        rw [e] at h
        exact h)
      (by
        have e : rc + (m + 1) = rc + 1 + m := by omega
        rw [e] at hsucc
        exact hsucc)
      (by show rc + 1 + m ≤ s.maxReconnectAttempts; omega)
    obtain ⟨h1, h2, h3, h4, h5⟩ := hrec
    refine ⟨h1, h2, h3, ?_, ?_⟩
    · show 5000 * (rc + 1) + _ = _
      rw [h4]
      rfl
    · show 1 + _ = _
      rw [h5]
      omega

theorem initNoPassword_aux (verify : Nat → Bool) :
    ∀ (n rc : Nat) (s : ServiceState) (now : Nat),
      s.maxReconnectAttempts - rc = n → rc ≤ s.maxReconnectAttempts →
      (initializeTransporter false verify rc s now).transporter = none ∧
      (initializeTransporter false verify rc s now).state.connectionStatus =
        ConnStatus.failed ∧
      (initializeTransporter false verify rc s now).state.lastError =
        some ErrKind.configError ∧
      (initializeTransporter false verify rc s now).state.reconnectAttempts =
        s.maxReconnectAttempts + 1 ∧
      (initializeTransporter false verify rc s now).verifyCalls = 0 ∧
      (initializeTransporter false verify rc s now).totalDelay = backoffTotal rc n := by
  intro n
  induction n with
  | zero =>
    intro rc s now hn hle
    have hrc : rc = s.maxReconnectAttempts := by omega
    rw [initializeTransporter.eq_def]
    simp [hrc, backoffTotal]
  | succ m ih =>
    intro rc s now hn hle
    have hlt : rc < s.maxReconnectAttempts := by omega
    rw [initializeTransporter.eq_def]
    simp only [Bool.false_eq_true, reduceIte, if_false]
    rw [dif_pos hlt]
    have hrec := ih (rc + 1)
      { lastError := some ErrKind.configError, connectionStatus := ConnStatus.failed,
        lastCheck := s.lastCheck, reconnectAttempts := rc + 1,
        maxReconnectAttempts := s.maxReconnectAttempts }
      (now + 5000 * (rc + 1))
      (by show s.maxReconnectAttempts - (rc + 1) = m; omega)
      (by show rc + 1 ≤ s.maxReconnectAttempts; omega)
    obtain ⟨h1, h2, h3, h4, h5, h6⟩ := hrec
    refine ⟨h1, h2, h3, h4, ?_, ?_⟩
    · show (initializeTransporter false verify (rc + 1) _ _).verifyCalls = 0
      exact h5
    · show 5000 * (rc + 1) + _ = _
      rw [h6]
      rfl

theorem initTrace_aux (p : Bool) (verify : Nat → Bool) :
    ∀ (n rc : Nat) (s : ServiceState) (now : Nat),
      s.maxReconnectAttempts - rc = n →
      ((initializeTransporter p verify rc s now).state.connectionStatus =
          ConnStatus.connected →
        (initializeTransporter p verify rc s now).transporter = some mkTransporter) ∧
      (∀ snap ∈ (initializeTransporter p verify rc s now).trace,
        snap.transporterVar = none ∧ snap.connectionStatus ≠ ConnStatus.connected) := by
  intro n
  induction n with
  | zero =>
    intro rc s now hn
    rw [initializeTransporter.eq_def]
    dsimp only
    split
    · split
      · exact ⟨fun _ => rfl, by simp⟩
      · rw [dif_neg (by omega)]
        exact ⟨by simp, by simp⟩
    · rw [dif_neg (by omega)]
      exact ⟨by simp, by simp⟩
  | succ m ih =>
    intro rc s now hn
    rw [initializeTransporter.eq_def]
    dsimp only
    split
    · split
      · exact ⟨fun _ => rfl, by simp⟩
      · split
        · obtain ⟨ih1, ih2⟩ := ih (rc + 1)
            { lastError := some ErrKind.verifyError, connectionStatus := ConnStatus.failed,
              lastCheck := some now, reconnectAttempts := rc + 1,
              maxReconnectAttempts := s.maxReconnectAttempts }
            (now + 5000 * (rc + 1))
            (by show s.maxReconnectAttempts - (rc + 1) = m; omega)
          refine ⟨ih1, ?_⟩
          intro snap hsnap
          simp only [List.mem_cons] at hsnap
          rcases hsnap with h | h | h
          · subst h; exact ⟨rfl, by simp⟩
          · subst h; exact ⟨rfl, by simp⟩
          · exact ih2 snap h
        · exact ⟨by simp, by simp⟩
    · split
      · obtain ⟨ih1, ih2⟩ := ih (rc + 1)
          { lastError := some ErrKind.configError, connectionStatus := ConnStatus.failed,
            lastCheck := s.lastCheck, reconnectAttempts := rc + 1,
            maxReconnectAttempts := s.maxReconnectAttempts }
          (now + 5000 * (rc + 1))
          (by show s.maxReconnectAttempts - (rc + 1) = m; omega)
        refine ⟨ih1, ?_⟩
        intro snap hsnap
        simp only [List.mem_cons] at hsnap
        rcases hsnap with h | h
        · subst h; exact ⟨rfl, by simp⟩
        · exact ih2 snap h
      · exact ⟨by simp, by simp⟩

/-- Claim C1: in a run of `initializeTransporter` (with the password present)
in which the connectivity verification fails on every attempt, initialization
ends reporting `Failed`, performs exactly `maxReconnectAttempts` retries in
addition to the initial attempt (so `1 + maxReconnectAttempts` verification
calls in total) and then stops, returning null. -/
theorem initialize_allFail_gives_up (verify : Nat → Bool)
    (hv : ∀ i, verify i = false) (s : ServiceState) (now : Nat) :
    (initializeTransporter true verify 0 s now).transporter = none ∧
    (initializeTransporter true verify 0 s now).state.connectionStatus =
      ConnStatus.failed ∧
    (initializeTransporter true verify 0 s now).verifyCalls =
      1 + s.maxReconnectAttempts := by
  obtain ⟨h1, h2, h3, h4⟩ :=
    initAllFail_aux verify hv s.maxReconnectAttempts 0 s now (by omega) (by omega)
  exact ⟨h1, h2, by omega⟩

theorem initialize_allFail_gives_up_witness :
    (initializeTransporter true (fun _ => false) 0 initialServiceState 0).transporter =
      none ∧
    (initializeTransporter true (fun _ => false) 0 initialServiceState 0).state.connectionStatus =
      ConnStatus.failed ∧
    (initializeTransporter true (fun _ => false) 0 initialServiceState 0).verifyCalls =
      1 + initialServiceState.maxReconnectAttempts :=
  initialize_allFail_gives_up (fun _ => false) (fun _ => rfl) initialServiceState 0

/-- Claim C2: if the connectivity verification fails exactly `k` times and
then succeeds, with `k < maxReconnectAttempts`, initialization ends reporting
`Connected` (returning the transport) and the total backoff delay incurred is
the sum of `5000 * i` for `i = 1..k` — linear, not exponential, backoff. -/
theorem initialize_k_failures_then_success (verify : Nat → Bool) (k : Nat)
    (hfail : ∀ i, i < k → verify i = false) (hsucc : verify k = true)
    (s : ServiceState) (hk : k < s.maxReconnectAttempts) (now : Nat) :
    (initializeTransporter true verify 0 s now).state.connectionStatus =
      ConnStatus.connected ∧
    (initializeTransporter true verify 0 s now).transporter = some mkTransporter ∧
    (initializeTransporter true verify 0 s now).totalDelay =
      Finset.sum (Finset.range k) (fun i => 5000 * (i + 1)) := by
  obtain ⟨h1, h2, h3, h4, h5⟩ := initEventualSuccess_aux verify k 0 s now
    (fun i hi => by simpa using hfail i hi) (by simpa using hsucc) (by omega)
  refine ⟨h2, h1, ?_⟩
  rw [h4, backoffTotal_eq_sum]
  exact Finset.sum_congr rfl (fun i _ => by ring)

theorem initialize_k_failures_then_success_witness :
    (initializeTransporter true (fun i => decide (i = 2)) 0 initialServiceState 0).state.connectionStatus =
      ConnStatus.connected ∧
    (initializeTransporter true (fun i => decide (i = 2)) 0 initialServiceState 0).transporter =
      some mkTransporter ∧
    (initializeTransporter true (fun i => decide (i = 2)) 0 initialServiceState 0).totalDelay =
      Finset.sum (Finset.range 2) (fun i => 5000 * (i + 1)) :=
  initialize_k_failures_then_success (fun i => decide (i = 2)) 2
    (by decide) (by decide) initialServiceState (by decide) 0

/-- Claim C3: a send request in which any of the fields to, subject or body
is absent is answered with failure carrying the missing-fields error, and
the external sendMail is never invoked. -/
theorem handleSend_missing_field_rejected (passwordSet : Bool) (verify : Nat → Bool)
    (mailOutcome : Option MailInfo) (toAddr subject body replyTo : Option String)
    (tv : Option Transporter) (s : ServiceState) (now : Nat)
    (h : toAddr = none ∨ subject = none ∨ body = none) :
    (handleSend passwordSet verify mailOutcome toAddr subject body replyTo tv s now).success =
      false ∧
    (handleSend passwordSet verify mailOutcome toAddr subject body replyTo tv s now).errorResponse =
      some SendError.missingFields ∧
    (handleSend passwordSet verify mailOutcome toAddr subject body replyTo tv s now).sendMailCalled =
      false := by
  rcases h with h | h | h <;> subst h <;> simp [handleSend, jsFalsy]

theorem handleSend_missing_field_rejected_witness :
    (handleSend true (fun _ => true) (some ⟨"id1"⟩) none (some "Hi") (some "Hello") none
        (some mkTransporter) initialServiceState 0).success = false ∧
    (handleSend true (fun _ => true) (some ⟨"id1"⟩) none (some "Hi") (some "Hello") none
        (some mkTransporter) initialServiceState 0).errorResponse =
      some SendError.missingFields ∧
    (handleSend true (fun _ => true) (some ⟨"id1"⟩) none (some "Hi") (some "Hello") none
        (some mkTransporter) initialServiceState 0).sendMailCalled = false :=
  handleSend_missing_field_rejected true (fun _ => true) (some ⟨"id1"⟩) none (some "Hi")
    (some "Hello") none (some mkTransporter) initialServiceState 0 (Or.inl rfl)

/-- Claim C4 as stated is refuted at the explicit input to = "" (with subject
and body present): the empty string does not match the address pattern, yet
the handler answers with the missing-fields error, not the invalid-address
error (the external sendMail is still not invoked). -/
theorem handleSend_empty_to_not_invalid_address :
    emailRegexTest "" = false ∧
    (handleSend true (fun _ => true) (some ⟨"id2"⟩) (some "") (some "Hi") (some "Hello") none
        (some mkTransporter) initialServiceState 0).errorResponse =
      some SendError.missingFields ∧
    ¬ (handleSend true (fun _ => true) (some ⟨"id2"⟩) (some "") (some "Hi") (some "Hello") none
        (some mkTransporter) initialServiceState 0).errorResponse =
      some SendError.invalidAddress ∧
    (handleSend true (fun _ => true) (some ⟨"id2"⟩) (some "") (some "Hi") (some "Hello") none
        (some mkTransporter) initialServiceState 0).sendMailCalled = false := by
  refine ⟨by decide, by decide, ?_⟩
  decide

/-- Claim C4 amended: for every send request in which to, subject and body
are all present and nonempty (so the presence check passes) and whose to
value does not match the address pattern, the handler answers with failure
carrying the invalid-address error and the external sendMail is never
invoked. -/
theorem handleSend_invalid_address_rejected (passwordSet : Bool) (verify : Nat → Bool)
    (mailOutcome : Option MailInfo) (toAddr subject body replyTo : Option String)
    (tv : Option Transporter) (s : ServiceState) (now : Nat)
    (h1 : jsFalsy toAddr = false) (h2 : jsFalsy subject = false)
    (h3 : jsFalsy body = false)
    (h4 : emailRegexTest (toAddr.getD "") = false) :
    (handleSend passwordSet verify mailOutcome toAddr subject body replyTo tv s now).success =
      false ∧
    (handleSend passwordSet verify mailOutcome toAddr subject body replyTo tv s now).errorResponse =
      some SendError.invalidAddress ∧
    (handleSend passwordSet verify mailOutcome toAddr subject body replyTo tv s now).sendMailCalled =
      false := by
  simp [handleSend, h1, h2, h3, h4]

theorem handleSend_invalid_address_rejected_witness :
    (handleSend true (fun _ => true) (some ⟨"id3"⟩) (some "not-an-email") (some "Hi")
        (some "Hello") none (some mkTransporter) initialServiceState 0).success = false ∧
    (handleSend true (fun _ => true) (some ⟨"id3"⟩) (some "not-an-email") (some "Hi")
        (some "Hello") none (some mkTransporter) initialServiceState 0).errorResponse =
      some SendError.invalidAddress ∧
    (handleSend true (fun _ => true) (some ⟨"id3"⟩) (some "not-an-email") (some "Hi")
        (some "Hello") none (some mkTransporter) initialServiceState 0).sendMailCalled =
      false :=
  handleSend_invalid_address_rejected true (fun _ => true) (some ⟨"id3"⟩)
    (some "not-an-email") (some "Hi") (some "Hello") none (some mkTransporter)
    initialServiceState 0 (by decide) (by decide) (by decide) (by decide)

/-- Claim C5 as stated is refuted at an explicit input: with no transport
handle, the password present and verification failing throughout, the single
lazy `initializeTransporter()` invocation made by `sendEmail` runs the full
retry ladder at request time — six verification attempts and 75000 ms of
backoff waits — contradicting "no repeated attempts and no backoff waits". -/
theorem sendEmail_lazy_init_runs_full_ladder :
    (sendEmail true (fun _ => false) none ⟨"a@b.com", "Hi", "Hello", none⟩ none
        initialServiceState 0).initCalls = 1 ∧
    (sendEmail true (fun _ => false) none ⟨"a@b.com", "Hi", "Hello", none⟩ none
        initialServiceState 0).initVerifyCalls = 6 ∧
    (sendEmail true (fun _ => false) none ⟨"a@b.com", "Hi", "Hello", none⟩ none
        initialServiceState 0).initDelay = 75000 ∧
    ¬ (sendEmail true (fun _ => false) none ⟨"a@b.com", "Hi", "Hello", none⟩ none
        initialServiceState 0).initDelay = 0 := by
  simp [sendEmail, initializeTransporter, initialServiceState]

/-- Claim C5 amended: when a send arrives and no transport handle exists,
`sendEmail` invokes `initializeTransporter` exactly once — but that single
invocation runs the full internal retry ladder (retries and backoff waits
included) rather than a single re-attempt; if the transport is still absent
afterwards, the send fails by throwing the service-unavailable error
("Mail service not initialized") and the external sendMail is never
invoked. -/
theorem sendEmail_lazy_init_once_then_unavailable (passwordSet : Bool)
    (verify : Nat → Bool) (mailOutcome : Option MailInfo) (options : SendOptions)
    (s : ServiceState) (now : Nat)
    (hfail : (initializeTransporter passwordSet verify 0 s now).transporter = none) :
    (sendEmail passwordSet verify mailOutcome options none s now).initCalls = 1 ∧
    (sendEmail passwordSet verify mailOutcome options none s now).result =
      Except.error SendError.notInitialized ∧
    (sendEmail passwordSet verify mailOutcome options none s now).sendMailCalled = false ∧
    (sendEmail passwordSet verify mailOutcome options none s now).transporterVar = none := by
  simp [sendEmail, hfail]

theorem sendEmail_lazy_init_once_then_unavailable_witness :
    (sendEmail false (fun _ => false) none ⟨"a@b.com", "Hi", "Hello", none⟩ none
        initialServiceState 0).initCalls = 1 ∧
    (sendEmail false (fun _ => false) none ⟨"a@b.com", "Hi", "Hello", none⟩ none
        initialServiceState 0).result = Except.error SendError.notInitialized ∧
    (sendEmail false (fun _ => false) none ⟨"a@b.com", "Hi", "Hello", none⟩ none
        initialServiceState 0).sendMailCalled = false ∧
    (sendEmail false (fun _ => false) none ⟨"a@b.com", "Hi", "Hello", none⟩ none
        initialServiceState 0).transporterVar = none :=
  sendEmail_lazy_init_once_then_unavailable false (fun _ => false) none
    ⟨"a@b.com", "Hi", "Hello", none⟩ initialServiceState 0
    (by simp [initializeTransporter, initialServiceState])

/-- Claim C6 as stated is refuted at the explicit input passwordSet = false:
the configuration error thrown by `validateConfig` is caught by the same
handler as a connectivity failure and is retried with backoff — it consumes
the whole retry budget (reconnectAttempts reaches 6 = maxReconnectAttempts + 1)
and incurs 75000 ms of backoff waits, contradicting "not retried and does
not consume the retry budget". -/
theorem initialize_missing_password_is_retried :
    (initializeTransporter false (fun _ => false) 0 initialServiceState 0).state.lastError =
      some ErrKind.configError ∧
    (initializeTransporter false (fun _ => false) 0 initialServiceState 0).state.reconnectAttempts =
      6 ∧
    (initializeTransporter false (fun _ => false) 0 initialServiceState 0).totalDelay =
      75000 ∧
    ¬ (initializeTransporter false (fun _ => false) 0 initialServiceState 0).totalDelay =
      0 := by
  simp [initializeTransporter, initialServiceState]

/-- Claim C6 amended: when the EMAIL_PASSWORD secret is absent, every
initialization attempt fails immediately with the configuration error
(verification is never even attempted), but the error is handled by the
same retry path as a connectivity failure: the run performs the full retry
ladder with linear backoff, leaves `reconnectAttempts` at
`maxReconnectAttempts + 1`, records the configuration error, reports
`Failed` and returns null. -/
theorem initialize_missing_password_retried_full_budget (verify : Nat → Bool)
    (s : ServiceState) (now : Nat) :
    (initializeTransporter false verify 0 s now).transporter = none ∧
    (initializeTransporter false verify 0 s now).state.connectionStatus =
      ConnStatus.failed ∧
    (initializeTransporter false verify 0 s now).state.lastError =
      some ErrKind.configError ∧
    (initializeTransporter false verify 0 s now).state.reconnectAttempts =
      s.maxReconnectAttempts + 1 ∧
    (initializeTransporter false verify 0 s now).verifyCalls = 0 ∧
    (initializeTransporter false verify 0 s now).totalDelay =
      Finset.sum (Finset.range s.maxReconnectAttempts) (fun i => 5000 * (i + 1)) := by
  obtain ⟨h1, h2, h3, h4, h5, h6⟩ :=
    initNoPassword_aux verify s.maxReconnectAttempts 0 s now (by omega) (by omega)
  refine ⟨h1, h2, h3, h4, h5, ?_⟩
  rw [h6, backoffTotal_eq_sum]
  exact Finset.sum_congr rfl (fun i _ => by ring)

/-- Claim C7: at every observable point of the startup initialization — the
process-start state, every I/O suspension (verification waits and backoff
timers) and the first state after completion (the promise-resolution
assignment to the module-level transporter variable runs before any later
I/O event) — connectionStatus = Connected implies the module-level
transporter variable is non-null. -/
theorem startup_connected_implies_transporter (passwordSet : Bool)
    (verify : Nat → Bool) (snap : Snapshot)
    (hmem : snap ∈ (startup passwordSet verify).trace)
    (hconn : snap.connectionStatus = ConnStatus.connected) :
    snap.transporterVar ≠ none := by
  obtain ⟨h1, h2⟩ := initTrace_aux passwordSet verify
    (initialServiceState.maxReconnectAttempts - 0) 0 initialServiceState 0 rfl
  simp only [startup, List.mem_cons, List.mem_append, List.mem_singleton,
    List.not_mem_nil, or_false] at hmem
  rcases hmem with h | h | h
  · rw [h] at hconn
    simp [initialServiceState] at hconn
  · exact absurd hconn ((h2 snap h).2)
  · rw [h] at hconn ⊢
    have ht := h1 hconn
    simp [ht]

theorem startup_connected_implies_transporter_witness :
    Snapshot.mk ConnStatus.connected (some mkTransporter) ∈
      (startup true (fun _ => true)).trace ∧
    (Snapshot.mk ConnStatus.connected (some mkTransporter)).connectionStatus =
      ConnStatus.connected ∧
    (Snapshot.mk ConnStatus.connected (some mkTransporter)).transporterVar ≠ none :=
  ⟨by simp [startup, initializeTransporter, initialServiceState],
   rfl,
   startup_connected_implies_transporter true (fun _ => true)
     (Snapshot.mk ConnStatus.connected (some mkTransporter))
     (by simp [startup, initializeTransporter, initialServiceState]) rfl⟩

/-- Claim C8 documents the intended envelope, but the code has a slip: the
from field is written as a single-quoted JavaScript string, so the template
placeholder is never interpolated and the literal text
"Pension Pilot" followed by a dollar-brace placeholder is sent instead of
the provider-validated address; every other field of the envelope matches
the claim (to/subject/text from the caller, replyTo override-or-default,
fixed bounce return-path and the three fixed anti-abuse headers). -/
theorem composeEmailConfig_from_is_uninterpolated_literal :
    (composeEmailConfig ⟨"a@b.com", "Hi", "Hello", none⟩).fromField =
      "\"Pension Pilot\" <$\x7bSMTP_CONFIG.user\x7d>" ∧
    ¬ (composeEmailConfig ⟨"a@b.com", "Hi", "Hello", none⟩).fromField =
      "\"Pension Pilot\" <noreply@pension-pilot.co.uk>" ∧
    (composeEmailConfig ⟨"a@b.com", "Hi", "Hello", none⟩).toAddr = "a@b.com" ∧
    (composeEmailConfig ⟨"a@b.com", "Hi", "Hello", none⟩).subject = "Hi" ∧
    (composeEmailConfig ⟨"a@b.com", "Hi", "Hello", none⟩).text = "Hello" ∧
    (composeEmailConfig ⟨"a@b.com", "Hi", "Hello", none⟩).replyTo =
      "noreply@pension-pilot.co.uk" ∧
    (composeEmailConfig ⟨"a@b.com", "Hi", "Hello", some "me@x.co"⟩).replyTo = "me@x.co" ∧
    (composeEmailConfig ⟨"a@b.com", "Hi", "Hello", none⟩).returnPath =
      "bounces@pension-pilot.co.uk" ∧
    (composeEmailConfig ⟨"a@b.com", "Hi", "Hello", none⟩).headers =
      [("List-Unsubscribe", "<mailto:unsubscribe@pension-pilot.co.uk>"),
       ("X-Mailer", "Pension Pilot Mail Service"),
       ("Precedence", "bulk")] := by
  exact ⟨rfl, by decide, rfl, rfl, rfl, rfl, by decide, rfl, rfl⟩

/-- Claim C9: a send performed while a transport handle exists leaves every
field of serviceState unchanged even when the external sendMail call fails
(the catch of the handler only produces the error response); only initialization
attempts mutate the service state. -/
theorem handleSend_failure_leaves_service_state (passwordSet : Bool)
    (verify : Nat → Bool) (toAddr subject body replyTo : Option String)
    (t : Transporter) (s : ServiceState) (now : Nat) :
    (handleSend passwordSet verify none toAddr subject body replyTo (some t) s now).state =
      s ∧
    (handleSend passwordSet verify none toAddr subject body replyTo (some t) s now).transporterVar =
      some t := by
  unfold handleSend
  split
  · exact ⟨rfl, rfl⟩
  · split
    · exact ⟨rfl, rfl⟩
    · simp [sendEmail]

/-- Claim C10: a send request in which to, subject or body is present but
the empty string is treated exactly like an absent field (truthiness):
the handler answers with the missing-fields failure — in particular an
empty to is rejected as missing, not as an invalid address — and the
external sendMail is never invoked. -/
theorem handleSend_empty_string_treated_as_missing (passwordSet : Bool)
    (verify : Nat → Bool) (mailOutcome : Option MailInfo)
    (toAddr subject body replyTo : Option String)
    (tv : Option Transporter) (s : ServiceState) (now : Nat)
    (h : toAddr = some "" ∨ subject = some "" ∨ body = some "") :
    (handleSend passwordSet verify mailOutcome toAddr subject body replyTo tv s now).success =
      false ∧
    (handleSend passwordSet verify mailOutcome toAddr subject body replyTo tv s now).errorResponse =
      some SendError.missingFields ∧
    (handleSend passwordSet verify mailOutcome toAddr subject body replyTo tv s now).sendMailCalled =
      false := by
  rcases h with h | h | h <;> subst h <;> simp [handleSend, jsFalsy]

theorem handleSend_empty_string_treated_as_missing_witness :
    (handleSend true (fun _ => true) (some ⟨"id4"⟩) (some "") (some "Hi") (some "Hello") none
        (some mkTransporter) initialServiceState 0).success = false ∧
    (handleSend true (fun _ => true) (some ⟨"id4"⟩) (some "") (some "Hi") (some "Hello") none
        (some mkTransporter) initialServiceState 0).errorResponse =
      some SendError.missingFields ∧
    (handleSend true (fun _ => true) (some ⟨"id4"⟩) (some "") (some "Hi") (some "Hello") none
        (some mkTransporter) initialServiceState 0).sendMailCalled = false :=
  handleSend_empty_string_treated_as_missing true (fun _ => true) (some ⟨"id4"⟩)
    (some "") (some "Hi") (some "Hello") none (some mkTransporter) initialServiceState 0
    (Or.inl rfl)
